import Mathlib

/-!
Verification of the dust-injector controller
(`src/particle_injector_controller.ino`).

The sketch drives a vibration motor (PWM) and a servo gate through a fixed
pulse sequence.  We embed it as a command-trace semantics: each
`analogWrite` / `Servo.write` / `delay` in the source becomes one `Cmd`
event, and `loop` / `setup` become trace-producing functions over a
`CycleConfig` record abstracting the sketch's configuration constants.
Durations are `unsigned long` (32-bit on the target), so the subtraction in
the derived-timing computation is modelled with an explicit `% 2^32`.
-/

/-- One command issued to the hardware, in program order:
`setVibration v` is `analogWrite(BUZZER_PIN, v)`, `setGate a` is
`injectorServo.write(a)`, and `wait d` is `delay(d)`. -/
inductive Cmd where
  | setVibration (level : Int)
  | setGate (angle : Int)
  | wait (duration : Nat)
  deriving DecidableEq, Repr

/-- The configuration constants of the sketch, gathered in one record
(`VIBE_PWM`, `VIBE_ON_MS`, `VIBE_OFF_MS`, `SERVO_OPEN_DEG`,
`SERVO_CLOSE_DEG`, `REOPEN_LEAD_MS`, `PULSE_CYCLES`).  Durations are
`unsigned long` hence `Nat`; angles, intensity and the pulse count are C
`int`, hence `Int`. -/
structure CycleConfig where
  vibrationIntensity : Int
  vibrationOnDuration : Nat
  vibrationOffDuration : Nat
  gateOpenAngle : Int
  gateCloseAngle : Int
  reopenLeadTime : Nat
  pulseCount : Int
  deriving DecidableEq, Repr

/-- The concrete constant values of the sketch:
`VIBE_PWM = 255`, `VIBE_ON_MS = 500`, `VIBE_OFF_MS = 1500`,
`SERVO_OPEN_DEG = 123`, `SERVO_CLOSE_DEG = 130`, `REOPEN_LEAD_MS = 250`,
`PULSE_CYCLES = 1100`. -/
def defaultConfig : CycleConfig :=
  { vibrationIntensity := 255
    vibrationOnDuration := 500
    vibrationOffDuration := 1500
    gateOpenAngle := 123
    gateCloseAngle := 130
    reopenLeadTime := 250
    pulseCount := 1100 }

/-- A configuration is valid when its durations fit in an `unsigned long`
(32-bit on the AVR target). -/
def CycleConfig.valid (cfg : CycleConfig) : Prop :=
  cfg.vibrationOnDuration < 2 ^ 32 ∧
  cfg.vibrationOffDuration < 2 ^ 32 ∧
  cfg.reopenLeadTime < 2 ^ 32

instance (cfg : CycleConfig) : Decidable cfg.valid := by
  unfold CycleConfig.valid; infer_instance

/-- Subtraction of 32-bit unsigned values, as C computes `a - b` on
`unsigned long` operands already reduced below `2^32`. -/
def wrapSub32 (a b : Nat) : Nat :=
  (a + 2 ^ 32 - b) % 2 ^ 32

/-- `closedHold = (VIBE_OFF_MS > REOPEN_LEAD_MS) ? (VIBE_OFF_MS - REOPEN_LEAD_MS) : 0`. -/
def closedHold (cfg : CycleConfig) : Nat :=
  if cfg.vibrationOffDuration > cfg.reopenLeadTime then
    wrapSub32 cfg.vibrationOffDuration cfg.reopenLeadTime
  else 0

/-- `reopenWait = (VIBE_OFF_MS > REOPEN_LEAD_MS) ? REOPEN_LEAD_MS : VIBE_OFF_MS`. -/
def reopenWait (cfg : CycleConfig) : Nat :=
  if cfg.vibrationOffDuration > cfg.reopenLeadTime then
    cfg.reopenLeadTime
  else cfg.vibrationOffDuration

/-- The commands issued by one iteration of the `for` loop in `loop()`:
vibration on, on-wait, vibration off, gate close, closed hold, gate reopen,
reopen wait.  (The `Serial.print` progress output issues no actuator
command.) -/
def pulseCmds (cfg : CycleConfig) : List Cmd :=
  [Cmd.setVibration cfg.vibrationIntensity,
   Cmd.wait cfg.vibrationOnDuration,
   Cmd.setVibration 0,
   Cmd.setGate cfg.gateCloseAngle,
   Cmd.wait (closedHold cfg),
   Cmd.setGate cfg.gateOpenAngle,
   Cmd.wait (reopenWait cfg)]

/-- The commands issued by `n` remaining iterations of the `for` loop. -/
def loopCmds (cfg : CycleConfig) : Nat → List Cmd
  | 0 => []
  | Nat.succ k => pulseCmds cfg ++ loopCmds cfg k

/-- The number of iterations `for (int cycle = 0; cycle < PULSE_CYCLES; ...)`
performs: `pulseCount` when non-negative, `0` otherwise. -/
def pulses (cfg : CycleConfig) : Nat :=
  cfg.pulseCount.toNat

/-- The full command trace of `loop()`: the pulse loop followed by the final
`analogWrite(BUZZER_PIN, 0)` shutdown; the terminal `while (true) {}` issues
nothing. -/
def runCommands (cfg : CycleConfig) : List Cmd :=
  loopCmds cfg (pulses cfg) ++ [Cmd.setVibration 0]

/-- The startup stabilization delay, `delay(11000)` in `setup()`. -/
def startupDelayMs : Nat := 11000

/-- The commands issued by `setup()`: gate to the open angle, vibration off,
startup delay.  (`Serial.begin`, `attach` and `pinMode` issue no actuator
command.) -/
def setupCommands (cfg : CycleConfig) : List Cmd :=
  [Cmd.setGate cfg.gateOpenAngle,
   Cmd.setVibration 0,
   Cmd.wait startupDelayMs]

/-- The whole program's command trace: `setup()` then `loop()`. -/
def fullTrace (cfg : CycleConfig) : List Cmd :=
  setupCommands cfg ++ runCommands cfg

/-- Number of commands of a trace satisfying a predicate. -/
def countCmds (p : Cmd → Bool) (l : List Cmd) : Nat :=
  (l.filter p).length

/-- A vibration-on command: the vibration source commanded to the
configured intensity. -/
def isVibOnCmd (cfg : CycleConfig) : Cmd → Bool
  | Cmd.setVibration v => v == cfg.vibrationIntensity
  | _ => false

/-- A gate-close command: the gate commanded to the close angle. -/
def isGateCloseCmd (cfg : CycleConfig) : Cmd → Bool
  | Cmd.setGate a => a == cfg.gateCloseAngle
  | _ => false

/-- A gate-reopen command: the gate commanded to the open angle. -/
def isGateOpenCmd (cfg : CycleConfig) : Cmd → Bool
  | Cmd.setGate a => a == cfg.gateOpenAngle
  | _ => false

/-- A command of one of the three per-pulse phase kinds. -/
def isPulsePhaseCmd (cfg : CycleConfig) (c : Cmd) : Bool :=
  isVibOnCmd cfg c || isGateCloseCmd cfg c || isGateOpenCmd cfg c

/- ## Helper lemmas -/

theorem wrapSub32_eq_sub {a b : Nat} (hb : b ≤ a) (ha : a < 2 ^ 32) :
    wrapSub32 a b = a - b := by
  unfold wrapSub32
  omega

theorem countCmds_append (p : Cmd → Bool) (l₁ l₂ : List Cmd) :
    countCmds p (l₁ ++ l₂) = countCmds p l₁ + countCmds p l₂ := by
  simp [countCmds, List.filter_append]

theorem countCmds_loopCmds (cfg : CycleConfig) (p : Cmd → Bool) (n : Nat) :
    countCmds p (loopCmds cfg n) = n * countCmds p (pulseCmds cfg) := by
  induction n with
  | zero => simp [loopCmds, countCmds]
  | succ k ih =>
    rw [loopCmds, countCmds_append, ih, Nat.succ_mul]
    omega

theorem filter_loopCmds (cfg : CycleConfig) (p : Cmd → Bool) (n : Nat) :
    (loopCmds cfg n).filter p =
      (List.replicate n ((pulseCmds cfg).filter p)).flatten := by
  induction n with
  | zero => simp [loopCmds]
  | succ k ih =>
    rw [loopCmds, List.filter_append, ih, List.replicate_succ,
      List.flatten_cons]

theorem length_loopCmds (cfg : CycleConfig) (n : Nat) :
    (loopCmds cfg n).length = 7 * n := by
  induction n with
  | zero => rfl
  | succ k ih =>
    rw [loopCmds, List.length_append, ih, pulseCmds]
    simp
    omega

/-- C1: for every valid configuration the derived timing follows the exact
clamping policy: when `reopenLeadTime ≥ vibrationOffDuration` we get
`closedHold = 0` and `reopenWait = vibrationOffDuration`; when
`reopenLeadTime < vibrationOffDuration` we get
`closedHold = vibrationOffDuration - reopenLeadTime` and
`reopenWait = reopenLeadTime`. -/
theorem derivedTiming_clamping_policy (cfg : CycleConfig) (h : cfg.valid) :
    (cfg.reopenLeadTime ≥ cfg.vibrationOffDuration →
      closedHold cfg = 0 ∧ reopenWait cfg = cfg.vibrationOffDuration) ∧
    (cfg.reopenLeadTime < cfg.vibrationOffDuration →
      closedHold cfg = cfg.vibrationOffDuration - cfg.reopenLeadTime ∧
      reopenWait cfg = cfg.reopenLeadTime) := by
  obtain ⟨-, hoff, -⟩ := h
  constructor
  · intro hge
    unfold closedHold reopenWait
    rw [if_neg (by omega), if_neg (by omega)]
    exact ⟨rfl, rfl⟩
  · intro hlt
    unfold closedHold reopenWait
    rw [if_pos (by omega), if_pos (by omega)]
    exact ⟨wrapSub32_eq_sub (by omega) hoff, rfl⟩

theorem derivedTiming_clamping_policy_witness :
    defaultConfig.valid ∧
    (defaultConfig.reopenLeadTime < defaultConfig.vibrationOffDuration →
      closedHold defaultConfig =
        defaultConfig.vibrationOffDuration - defaultConfig.reopenLeadTime ∧
      reopenWait defaultConfig = defaultConfig.reopenLeadTime) :=
  ⟨by decide, (derivedTiming_clamping_policy defaultConfig (by decide)).2⟩

/-- C2: for every valid configuration the derived timing quantities
partition the off-period exactly:
`closedHold + reopenWait = vibrationOffDuration`. -/
theorem derivedTiming_partitions_off_period (cfg : CycleConfig)
    (h : cfg.valid) :
    closedHold cfg + reopenWait cfg = cfg.vibrationOffDuration := by
  obtain ⟨-, hoff, -⟩ := h
  unfold closedHold reopenWait
  by_cases hc : cfg.vibrationOffDuration > cfg.reopenLeadTime
  · rw [if_pos hc, if_pos hc, wrapSub32_eq_sub (by omega) hoff]
    omega
  · rw [if_neg hc, if_neg hc]
    omega

theorem derivedTiming_partitions_off_period_witness :
    closedHold defaultConfig + reopenWait defaultConfig =
      defaultConfig.vibrationOffDuration :=
  derivedTiming_partitions_off_period defaultConfig (by decide)

/-- C10: the guard performs the unsigned subtraction only when the result is
non-negative, so for every valid configuration neither derived quantity
wraps modulo `2^32`: `closedHold` equals the truncated difference
`vibrationOffDuration - reopenLeadTime` and both quantities are bounded by
`vibrationOffDuration`. -/
theorem closedHold_no_wrap (cfg : CycleConfig) (h : cfg.valid) :
    closedHold cfg = cfg.vibrationOffDuration - cfg.reopenLeadTime ∧
    closedHold cfg ≤ cfg.vibrationOffDuration ∧
    reopenWait cfg ≤ cfg.vibrationOffDuration := by
  obtain ⟨-, hoff, -⟩ := h
  unfold closedHold reopenWait
  by_cases hc : cfg.vibrationOffDuration > cfg.reopenLeadTime
  · rw [if_pos hc, if_pos hc, wrapSub32_eq_sub (by omega) hoff]
    omega
  · rw [if_neg hc, if_neg hc]
    omega

theorem closedHold_no_wrap_witness :
    closedHold defaultConfig =
      defaultConfig.vibrationOffDuration - defaultConfig.reopenLeadTime ∧
    closedHold defaultConfig ≤ defaultConfig.vibrationOffDuration ∧
    reopenWait defaultConfig ≤ defaultConfig.vibrationOffDuration :=
  closedHold_no_wrap defaultConfig (by decide)

/-- C3: a run with `pulseCount = n` (non-negative) issues exactly `n`
vibration-on commands at the configured intensity, exactly `n` gate-close
commands and exactly `n` gate-reopen commands, and restricted to those
three command kinds the trace is exactly
(vibration-on, gate-close, gate-reopen) repeated `n` times. -/
theorem run_command_counts (cfg : CycleConfig)
    (hv : cfg.vibrationIntensity ≠ 0)
    (hg : cfg.gateCloseAngle ≠ cfg.gateOpenAngle) :
    countCmds (isVibOnCmd cfg) (runCommands cfg) = pulses cfg ∧
    countCmds (isGateCloseCmd cfg) (runCommands cfg) = pulses cfg ∧
    countCmds (isGateOpenCmd cfg) (runCommands cfg) = pulses cfg ∧
    (runCommands cfg).filter (isPulsePhaseCmd cfg) =
      (List.replicate (pulses cfg)
        [Cmd.setVibration cfg.vibrationIntensity,
         Cmd.setGate cfg.gateCloseAngle,
         Cmd.setGate cfg.gateOpenAngle]).flatten := by
  have h0 : ((0 : Int) == cfg.vibrationIntensity) = false :=
    beq_eq_false_iff_ne.mpr (fun h => hv h.symm)
  have hoc : (cfg.gateOpenAngle == cfg.gateCloseAngle) = false :=
    beq_eq_false_iff_ne.mpr (fun h => hg h.symm)
  have hco : (cfg.gateCloseAngle == cfg.gateOpenAngle) = false :=
    beq_eq_false_iff_ne.mpr hg
  refine ⟨?_, ?_, ?_, ?_⟩
  · rw [runCommands, countCmds_append, countCmds_loopCmds]
    simp [countCmds, pulseCmds, isVibOnCmd, List.filter, h0]
  · rw [runCommands, countCmds_append, countCmds_loopCmds]
    simp [countCmds, pulseCmds, isGateCloseCmd, List.filter, hoc]
  · rw [runCommands, countCmds_append, countCmds_loopCmds]
    simp [countCmds, pulseCmds, isGateOpenCmd, List.filter, hco]
  · rw [runCommands, List.filter_append, filter_loopCmds]
    simp [pulseCmds, isPulsePhaseCmd, isVibOnCmd, isGateCloseCmd,
      isGateOpenCmd, List.filter, h0]

theorem run_command_counts_witness :
    defaultConfig.vibrationIntensity ≠ 0 ∧
    defaultConfig.gateCloseAngle ≠ defaultConfig.gateOpenAngle ∧
    countCmds (isVibOnCmd defaultConfig) (runCommands defaultConfig) =
      pulses defaultConfig :=
  ⟨by decide, by decide,
    (run_command_counts defaultConfig (by decide) (by decide)).1⟩

/-- C5: after the commands of the `pulseCount` pulses (seven commands per
pulse), what remains of the run trace is exactly one vibration-shutdown
command and nothing else: no further vibration or gate command is ever
issued. -/
theorem finished_single_shutdown (cfg : CycleConfig) :
    (runCommands cfg).drop (7 * pulses cfg) = [Cmd.setVibration 0] := by
  rw [runCommands, ← length_loopCmds cfg (pulses cfg)]
  exact List.drop_left _ _

/-- C6: a run with `pulseCount = 0` issues no vibration-on, gate-close or
gate-reopen command at all: its whole trace is the single terminal
vibration-shutdown command. -/
theorem zero_pulse_run_noop (cfg : CycleConfig) (h : cfg.pulseCount = 0) :
    runCommands cfg = [Cmd.setVibration 0] := by
  rw [runCommands, pulses, h]
  rfl

theorem zero_pulse_run_noop_witness :
    runCommands { defaultConfig with pulseCount := 0 } =
      [Cmd.setVibration 0] :=
  zero_pulse_run_noop { defaultConfig with pulseCount := 0 } rfl

/-- Scanner for the silenced-before-close property: walks a trace keeping
the most recently commanded vibration level, and at every gate command to
`closeAngle` checks that the most recent vibration command was intensity
`0` (and that one exists). -/
def vibSilencedBeforeClose (closeAngle : Int) :
    Option Int → List Cmd → Bool
  | _, [] => true
  | _, Cmd.setVibration v :: rest =>
      vibSilencedBeforeClose closeAngle (some v) rest
  | lastV, Cmd.setGate a :: rest =>
      (if a = closeAngle then lastV == some 0 else true) &&
        vibSilencedBeforeClose closeAngle lastV rest
  | lastV, Cmd.wait _ :: rest =>
      vibSilencedBeforeClose closeAngle lastV rest

theorem vibSilencedBeforeClose_pulse (cfg : CycleConfig) (s : Option Int)
    (rest : List Cmd) :
    vibSilencedBeforeClose cfg.gateCloseAngle s (pulseCmds cfg ++ rest) =
      vibSilencedBeforeClose cfg.gateCloseAngle (some 0) rest := by
  simp [pulseCmds, vibSilencedBeforeClose]

theorem vibSilencedBeforeClose_loop (cfg : CycleConfig) (n : Nat) :
    ∀ s, vibSilencedBeforeClose cfg.gateCloseAngle s
      (loopCmds cfg n ++ [Cmd.setVibration 0]) = true := by
  induction n with
  | zero =>
    intro s
    simp [loopCmds, vibSilencedBeforeClose]
  | succ k ih =>
    intro s
    rw [loopCmds, List.append_assoc, vibSilencedBeforeClose_pulse]
    exact ih (some 0)

/-- C4: along the whole run trace, whenever a gate-close command occurs the
most recent vibration command is intensity `0` — the vibration source is
silenced strictly before each gate-close, and is never at a non-zero
commanded intensity when the gate closes. -/
theorem vibration_silenced_before_gate_close (cfg : CycleConfig) :
    vibSilencedBeforeClose cfg.gateCloseAngle none (runCommands cfg) =
      true := by
  rw [runCommands]
  exact vibSilencedBeforeClose_loop cfg (pulses cfg) none

/-- Fold step tracking the most recently commanded vibration level. -/
def vibStep (acc : Option Int) : Cmd → Option Int
  | Cmd.setVibration v => some v
  | _ => acc

/-- Fold step tracking the most recently commanded gate angle. -/
def gateStep (acc : Option Int) : Cmd → Option Int
  | Cmd.setGate a => some a
  | _ => acc

/-- The level of the most recent vibration command of a trace, if any. -/
def lastVib (l : List Cmd) : Option Int :=
  l.foldl vibStep none

/-- The angle of the most recent gate command of a trace, if any. -/
def lastGate (l : List Cmd) : Option Int :=
  l.foldl gateStep none

/-- C8: initialization (`setup()`) commands the gate to the open angle and
the vibration intensity to `0`, so every run starts from the state
gate-open, vibration-off. -/
theorem setup_initial_state (cfg : CycleConfig) :
    lastGate (setupCommands cfg) = some cfg.gateOpenAngle ∧
    lastVib (setupCommands cfg) = some 0 :=
  ⟨rfl, rfl⟩

theorem gateStep_foldl_pulse (cfg : CycleConfig) (acc : Option Int) :
    List.foldl gateStep acc (pulseCmds cfg) = some cfg.gateOpenAngle :=
  rfl

theorem gateStep_foldl_run (cfg : CycleConfig) (n : Nat) :
    ∀ acc, List.foldl gateStep acc (loopCmds cfg n ++ [Cmd.setVibration 0])
      = if n = 0 then acc else some cfg.gateOpenAngle := by
  induction n with
  | zero =>
    intro acc
    rfl
  | succ k ih =>
    intro acc
    rw [loopCmds, List.append_assoc, List.foldl_append,
      gateStep_foldl_pulse, ih]
    by_cases hk : k = 0 <;> simp [hk]

/-- C9: within each pulse the last gate command is gate-open, and at the
end of the whole program trace (setup, all pulses, terminal shutdown —
which issues no gate command) the most recent gate command is the open
angle, for every configuration including `pulseCount = 0`: the gate is
left open at the end of a run. -/
theorem gate_left_open_at_end (cfg : CycleConfig) :
    lastGate (pulseCmds cfg) = some cfg.gateOpenAngle ∧
    lastGate (fullTrace cfg) = some cfg.gateOpenAngle := by
  constructor
  · rfl
  · rw [fullTrace, lastGate, List.foldl_append, runCommands,
      gateStep_foldl_run]
    by_cases hn : pulses cfg = 0
    · rw [if_pos hn]
      rfl
    · rw [if_neg hn]

/-- Modelled from the spec: the sketch hardwires its configuration in
global constants and contains no construction-time validation code, so the
construction contract of spec §7 (reject a negative `pulseCount` or any
negative duration field, fail fast with a descriptive error identifying
the offending field, clamp nothing) is modelled here.  Fields arrive as
supplied integers and are validated before conversion to the machine types
of `CycleConfig`. -/
def mkCycleConfig (vibrationIntensity vibrationOnDuration
    vibrationOffDuration gateOpenAngle gateCloseAngle reopenLeadTime
    pulseCount : Int) : Except String CycleConfig :=
  if pulseCount < 0 then
    Except.error "pulseCount must be non-negative"
  else if vibrationOnDuration < 0 then
    Except.error "vibrationOnDuration must be non-negative"
  else if vibrationOffDuration < 0 then
    Except.error "vibrationOffDuration must be non-negative"
  else if reopenLeadTime < 0 then
    Except.error "reopenLeadTime must be non-negative"
  else
    Except.ok
      { vibrationIntensity := vibrationIntensity
        vibrationOnDuration := vibrationOnDuration.toNat
        vibrationOffDuration := vibrationOffDuration.toNat
        gateOpenAngle := gateOpenAngle
        gateCloseAngle := gateCloseAngle
        reopenLeadTime := reopenLeadTime.toNat
        pulseCount := pulseCount }

/-- C7: construction detects misconfiguration and fails fast — a negative
`pulseCount` or any negative duration field yields a descriptive error
naming the offending field — while a well-formed configuration is accepted
with every field carried over exactly as supplied, so no value other than
the two derived timing quantities is ever silently clamped. -/
theorem construction_rejects_negative_fields
    (vi onD offD go gc rl pc : Int) :
    (pc < 0 →
      mkCycleConfig vi onD offD go gc rl pc =
        Except.error "pulseCount must be non-negative") ∧
    (0 ≤ pc → onD < 0 →
      mkCycleConfig vi onD offD go gc rl pc =
        Except.error "vibrationOnDuration must be non-negative") ∧
    (0 ≤ pc → 0 ≤ onD → offD < 0 →
      mkCycleConfig vi onD offD go gc rl pc =
        Except.error "vibrationOffDuration must be non-negative") ∧
    (0 ≤ pc → 0 ≤ onD → 0 ≤ offD → rl < 0 →
      mkCycleConfig vi onD offD go gc rl pc =
        Except.error "reopenLeadTime must be non-negative") ∧
    (0 ≤ pc → 0 ≤ onD → 0 ≤ offD → 0 ≤ rl →
      ∃ cfg, mkCycleConfig vi onD offD go gc rl pc = Except.ok cfg ∧
        cfg.vibrationIntensity = vi ∧
        (cfg.vibrationOnDuration : Int) = onD ∧
        (cfg.vibrationOffDuration : Int) = offD ∧
        cfg.gateOpenAngle = go ∧
        cfg.gateCloseAngle = gc ∧
        (cfg.reopenLeadTime : Int) = rl ∧
        cfg.pulseCount = pc) := by
  refine ⟨?_, ?_, ?_, ?_, ?_⟩
  · intro h1
    rw [mkCycleConfig, if_pos h1]
  · intro h1 h2
    rw [mkCycleConfig, if_neg (by omega), if_pos h2]
  · intro h1 h2 h3
    rw [mkCycleConfig, if_neg (by omega), if_neg (by omega), if_pos h3]
  · intro h1 h2 h3 h4
    rw [mkCycleConfig, if_neg (by omega), if_neg (by omega),
      if_neg (by omega), if_pos h4]
  · intro h1 h2 h3 h4
    refine ⟨{ vibrationIntensity := vi
              vibrationOnDuration := onD.toNat
              vibrationOffDuration := offD.toNat
              gateOpenAngle := go
              gateCloseAngle := gc
              reopenLeadTime := rl.toNat
              pulseCount := pc },
      ?_, rfl, Int.toNat_of_nonneg h2, Int.toNat_of_nonneg h3,
      rfl, rfl, Int.toNat_of_nonneg h4, rfl⟩
    rw [mkCycleConfig, if_neg (by omega), if_neg (by omega),
      if_neg (by omega), if_neg (by omega)]

theorem construction_rejects_negative_fields_witness :
    mkCycleConfig 255 500 1500 123 130 250 (-1) =
      Except.error "pulseCount must be non-negative" :=
  (construction_rejects_negative_fields 255 500 1500 123 130 250 (-1)).1
    (by decide)
